import Mathlib

/-!
Shallow embedding of the twentyninetech image-generation server.

The embedded code:
- `generateFilename` (src/server/routes.ts, lines 53-61): timestamp/prompt
  sanitization for filesystem-safe filenames;
- `generateImageRequestSchema` (src/shared/schema.ts, lines 33-35): zod
  prompt validation;
- the POST /api/generate handler (src/server/routes.ts, lines 70-136):
  validation, Replicate output normalization, download, persistence,
  and the catch-all error response;
- `MemStorage` (storage module): saveGeneratedImage, getRecentImages,
  getImageCount;
- the GET /api/images/recent handler (src/server/routes.ts, lines 139-150):
  parseInt on the limit query parameter with the `|| 12` default.

Effectful inputs (the current time, the Replicate response, the result of
downloading the image) are passed as explicit parameters; randomUUID is
modelled by a fresh counter, so that the Map keyed by fresh ids becomes a
list of records in insertion order.
-/

namespace TwentyNine

/-- ASCII whitespace characters matched by the JS regex class `\s`. -/
def isWsChar (c : Char) : Bool :=
  c = ' ' || c = '\t' || c = '\n' || c = '\r' || c = '\x0b' || c = '\x0c'

/-- Characters kept by `.replace(/[^a-z0-9\s]/g, '')` in generateFilename. -/
def keepChar (c : Char) : Bool :=
  ('a' ≤ c && c ≤ 'z') || ('0' ≤ c && c ≤ '9') || isWsChar c

/-- Replace each maximal run of whitespace by a single hyphen, as
`.replace(/\s+/g, '-')` does; `prevWs` records whether the previous
character belonged to a whitespace run. -/
def collapseWsAux : Bool → List Char → List Char
  | _, [] => []
  | prevWs, c :: rest =>
    if isWsChar c then
      if prevWs then collapseWsAux true rest
      else '-' :: collapseWsAux true rest
    else c :: collapseWsAux false rest

/-- `.replace(/\s+/g, '-')` on a character list. -/
def collapseWs (l : List Char) : List Char := collapseWsAux false l

/-- The sanitizedPrompt computed inside generateFilename
(src/server/routes.ts, lines 55-59):
`prompt.toLowerCase().replace(/[^a-z0-9\s]/g, '').replace(/\s+/g, '-').substring(0, 50)`. -/
def sanitizePrompt (prompt : String) : String :=
  String.mk ((collapseWs ((prompt.data.map Char.toLower).filter keepChar)).take 50)

/-- One character of `timestamp.replace(/[:.]/g, '-')`. -/
def fsSafeChar (c : Char) : Char := if c = ':' || c = '.' then '-' else c

/-- `new Date().toISOString().replace(/[:.]/g, '-')` applied to the ISO
timestamp string, which is passed in explicitly. -/
def fsSafeTimestamp (iso : String) : String := String.mk (iso.data.map fsSafeChar)

/-- generateFilename (src/server/routes.ts, lines 53-61), with the current
time supplied as the ISO-8601 string produced by `new Date().toISOString()`. -/
def generateFilename (isoTimestamp prompt : String) : String :=
  fsSafeTimestamp isoTimestamp ++ "_" ++ sanitizePrompt prompt ++ ".png"

/-- The raw request body as seen by `generateImageRequestSchema.parse`:
either the prompt field holds a string, or it is missing / not a string
(which the zod schema rejects with a type error). -/
inductive RawBody
  | promptStr (s : String)
  | notAString
  deriving DecidableEq

/-- `generateImageRequestSchema.parse` (src/shared/schema.ts, lines 33-35):
`z.string().min(1, "Prompt is required").max(500, "Prompt too long")`. -/
def validateBody : RawBody → Except String String
  | .notAString => .error "Expected string, received something else"
  | .promptStr s =>
    if s.length < 1 then .error "Prompt is required"
    else if 500 < s.length then .error "Prompt too long"
    else .ok s

/-- Shapes the Replicate client may deliver to the generate handler:
an array of URLs, a bare string URL, or anything else. -/
inductive ReplicateOutput
  | arr (urls : List String)
  | str (url : String)
  | other
  deriving DecidableEq

/-- Output normalization in the generate handler (src/server/routes.ts,
lines 90-99): a non-empty array yields its first element, a string is used
directly, anything else (including an empty array) throws
"No valid image URL in API response". -/
def normalizeOutput : ReplicateOutput → Except String String
  | .arr (u :: _) => .ok u
  | .str u => .ok u
  | .arr [] => .error "No valid image URL in API response"
  | .other => .error "No valid image URL in API response"

/-- InsertImage (insertImageSchema: generatedImages without id/generatedAt);
modelUsed is optional because the column carries a database default. -/
structure InsertImage where
  prompt : String
  imageUrl : String
  localPath : String
  fileSize : Nat
  resolution : String
  modelUsed : Option String
  deriving DecidableEq

/-- GeneratedImage record as stored by MemStorage; generatedAt is epoch
milliseconds of the `new Date()` taken at save time. -/
structure GeneratedImage where
  id : Nat
  prompt : String
  imageUrl : String
  localPath : String
  fileSize : Nat
  resolution : String
  modelUsed : String
  generatedAt : Nat
  deriving DecidableEq

/-- MemStorage: the images Map keyed by fresh randomUUIDs, modelled as the
list of values in insertion order plus a fresh-id counter. -/
structure MemStorage where
  images : List GeneratedImage
  nextId : Nat
  deriving DecidableEq

/-- A MemStorage as built by the constructor: empty Map. -/
def emptyStorage : MemStorage := ⟨[], 0⟩

/-- MemStorage.saveGeneratedImage: assign a fresh id, default modelUsed via
`insertImage.modelUsed || "bytedance/sdxl-lightning-4step"` (JS `||` treats
both a missing value and the empty string as falsy), stamp generatedAt with
the current time, insert, and return the record. -/
def saveGeneratedImage (st : MemStorage) (ins : InsertImage) (now : Nat) :
    GeneratedImage × MemStorage :=
  let image : GeneratedImage :=
    { id := st.nextId
      prompt := ins.prompt
      imageUrl := ins.imageUrl
      localPath := ins.localPath
      fileSize := ins.fileSize
      resolution := ins.resolution
      modelUsed :=
        match ins.modelUsed with
        | none => "bytedance/sdxl-lightning-4step"
        | some s => if s = "" then "bytedance/sdxl-lightning-4step" else s
      generatedAt := now }
  (image, ⟨st.images ++ [image], st.nextId + 1⟩)

/-- `Array.prototype.slice(0, e)`: a negative end index counts back from the
end of the array; the result is empty when the clamped end is ≤ 0. -/
def sliceEnd (l : List α) (e : Int) : List α :=
  l.take (if e < 0 then ((l.length : Int) + e).toNat else e.toNat)

/-- The sort comparator `(a, b) => b.generatedAt - a.generatedAt` of
getRecentImages, as the ordering it induces: `a` sorts before `b` when
`a.generatedAt ≥ b.generatedAt`. -/
def recentLe (a b : GeneratedImage) : Bool := b.generatedAt ≤ a.generatedAt

/-- Stable insertion of a record into a list already sorted by the
comparator: the inserted record (which originally precedes every record of
the list) goes before the first record of equal or older timestamp. -/
def insertByRecent (x : GeneratedImage) : List GeneratedImage → List GeneratedImage
  | [] => [x]
  | y :: ys => if recentLe x y then x :: y :: ys else y :: insertByRecent x ys

/-- `Array.prototype.sort` with the getRecentImages comparator. The ES2019
sort is stable, and every stable sort of a list under a fixed total
preorder produces the same output, so a stable insertion sort models it
exactly. -/
def sortByRecent : List GeneratedImage → List GeneratedImage
  | [] => []
  | x :: xs => insertByRecent x (sortByRecent xs)

/-- MemStorage.getRecentImages: copy the Map values, sort by generatedAt
descending, and `.slice(0, limit)`. -/
def getRecentImages (st : MemStorage) (limit : Int) : List GeneratedImage :=
  sliceEnd (sortByRecent st.images) limit

/-- getRecentImages at its declared default `limit: number = 12`. -/
def getRecentImagesDefault (st : MemStorage) : List GeneratedImage :=
  getRecentImages st 12

/-- MemStorage.getImageCount: `this.images.size`. -/
def getImageCount (st : MemStorage) : Nat := st.images.length

/-- Result of `downloadImage` plus the subsequent `fs.stat`: success carries
the byte size of the written file, failure the thrown message. -/
inductive DownloadOutcome
  | ok (size : Nat)
  | fail (msg : String)
  deriving DecidableEq

/-- An HTTP response of the generate handler: status code, and the
`success`/`message` fields of the JSON body. -/
structure HandlerResponse where
  status : Nat
  success : Bool
  message : String
  deriving DecidableEq

/-- Outcome of one POST /api/generate request: the response, the storage
after the request, and whether `replicate.run` was invoked. -/
structure GenerateOutcome where
  response : HandlerResponse
  storageAfter : MemStorage
  upstreamCalled : Bool
  deriving DecidableEq

/-- The POST /api/generate handler (src/server/routes.ts, lines 70-136).
Validation precedes the `replicate.run` call; any thrown error reaches the
single catch block, which answers status 500 with the error message; the
success path saves the record (with the local serving URL as imageUrl and
the path inside the images directory as localPath) and answers 200. -/
def generatePipeline (body : RawBody) (upstream : ReplicateOutput)
    (dl : DownloadOutcome) (isoTs : String) (now : Nat)
    (basePath imagesDir : String) (st : MemStorage) : GenerateOutcome :=
  match validateBody body with
  | .error msg => ⟨⟨500, false, msg⟩, st, false⟩
  | .ok prompt =>
    match normalizeOutput upstream with
    | .error msg => ⟨⟨500, false, msg⟩, st, true⟩
    | .ok _imageUrl =>
      let filename := generateFilename isoTs prompt
      match dl with
      | .fail msg => ⟨⟨500, false, msg⟩, st, true⟩
      | .ok size =>
        let ins : InsertImage :=
          { prompt := prompt
            imageUrl := basePath ++ "/api/images/" ++ filename
            localPath := imagesDir ++ "/" ++ filename
            fileSize := size
            resolution := "3:4"
            modelUsed := some "flux-schnell-mm29-style" }
        ⟨⟨200, true, "Image generated and saved successfully"⟩,
         (saveGeneratedImage st ins now).2, true⟩

/-- One operation against the metadata repository: either a direct
saveGeneratedImage call, or a whole generate request (which calls save
exactly when it succeeds). -/
inductive StorageOp
  | save (ins : InsertImage) (now : Nat)
  | genAttempt (body : RawBody) (upstream : ReplicateOutput)
      (dl : DownloadOutcome) (isoTs : String) (now : Nat)

/-- Run a sequence of repository operations; returns the final storage and
the number of saveGeneratedImage calls performed (every direct save, plus
each generate attempt that reached the save step, i.e. succeeded). -/
def runOps (basePath imagesDir : String) :
    List StorageOp → MemStorage → MemStorage × Nat
  | [], st => (st, 0)
  | .save ins now :: ops, st =>
    let r := runOps basePath imagesDir ops (saveGeneratedImage st ins now).2
    (r.1, r.2 + 1)
  | .genAttempt body up dl ts now :: ops, st =>
    let o := generatePipeline body up dl ts now basePath imagesDir st
    let r := runOps basePath imagesDir ops o.storageAfter
    (r.1, r.2 + (if o.response.success then 1 else 0))

/-- Result of JS parseInt: a number or NaN. -/
inductive ParsedInt
  | nan
  | val (n : Int)
  deriving DecidableEq

/-- Hexadecimal digit test for parseInt's radix-16 mode. -/
def hexDigit (c : Char) : Bool :=
  c.isDigit || ('a' ≤ c && c ≤ 'f') || ('A' ≤ c && c ≤ 'F')

/-- Value of a hexadecimal digit. -/
def hexVal (c : Char) : Nat :=
  if c.isDigit then c.toNat - '0'.toNat
  else if 'a' ≤ c && c ≤ 'f' then c.toNat - 'a'.toNat + 10
  else c.toNat - 'A'.toNat + 10

/-- Digit-list value in a given base. -/
def digitsToNat (base : Nat) (val : Char → Nat) (ds : List Char) : Nat :=
  ds.foldl (fun acc c => acc * base + val c) 0

/-- JS `parseInt(s)` with no radix: skip leading whitespace, read an
optional sign, detect the `0x`/`0X` prefix (radix 16) and otherwise use
radix 10, take the longest digit prefix, and return NaN when it is empty. -/
def jsParseIntChars (l : List Char) : ParsedInt :=
  let l1 := l.dropWhile isWsChar
  let signRest : Bool × List Char :=
    match l1 with
    | '-' :: r => (true, r)
    | '+' :: r => (false, r)
    | r => (false, r)
  let hexBody : Option (List Char) :=
    match signRest.2 with
    | '0' :: 'x' :: r => some r
    | '0' :: 'X' :: r => some r
    | _ => none
  match hexBody with
  | some r =>
    let ds := r.takeWhile hexDigit
    if ds.isEmpty then .nan
    else .val (cond signRest.1 (-(digitsToNat 16 hexVal ds : Int))
      (digitsToNat 16 hexVal ds))
  | none =>
    let ds := signRest.2.takeWhile Char.isDigit
    if ds.isEmpty then .nan
    else .val (cond signRest.1
      (-(digitsToNat 10 (fun c => c.toNat - '0'.toNat) ds : Int))
      (digitsToNat 10 (fun c => c.toNat - '0'.toNat) ds))

/-- `parseInt(req.query.limit as string)`: an absent query parameter is
`undefined`, and `parseInt(undefined)` is NaN. -/
def jsParseInt : Option String → ParsedInt
  | none => .nan
  | some s => jsParseIntChars s.data

/-- Limit used by the GET /api/images/recent handler (src/server/routes.ts,
line 141): `parseInt(req.query.limit as string) || 12` — NaN and 0 are
falsy, every other number (negative included) passes through. -/
def recentLimit (q : Option String) : Int :=
  match jsParseInt q with
  | .nan => 12
  | .val n => if n = 0 then 12 else n

/-- The GET /api/images/recent handler: resolve the limit, query storage. -/
def recentHandler (q : Option String) (st : MemStorage) : List GeneratedImage :=
  getRecentImages st (recentLimit q)

/-- Character class of a raw ISO-8601 timestamp as produced by
`Date.prototype.toISOString` (YYYY-MM-DDTHH:mm:ss.sssZ). -/
def isoTsChar (c : Char) : Bool :=
  c.isDigit || c = '-' || c = 'T' || c = ':' || c = '.' || c = 'Z'

/-- Characters a generated filename may contain: lowercase letters, digits,
hyphens, the ISO markers T and Z, the underscore separator, and the dot of
the .png suffix. -/
def filenameChar (c : Char) : Bool :=
  ('a' ≤ c && c ≤ 'z') || c.isDigit || c = '-' || c = 'T' || c = 'Z' ||
    c = '_' || c = '.'

/-! ### Helper lemmas about the filename sanitizer -/

/-- Every character emitted by the whitespace-collapsing pass is either the
hyphen it writes or a non-whitespace character of its input. -/
theorem mem_collapseWsAux {c : Char} (l : List Char) :
    ∀ b : Bool, c ∈ collapseWsAux b l → c = '-' ∨ (c ∈ l ∧ isWsChar c = false) := by
  induction l with
  | nil => intro b h; simp [collapseWsAux] at h
  | cons a l ih =>
    intro b h
    unfold collapseWsAux at h
    by_cases ha : isWsChar a = true
    · rw [if_pos ha] at h
      by_cases hb : b = true
      · rw [if_pos hb] at h
        rcases ih true h with h1 | ⟨h2, h3⟩
        · exact Or.inl h1
        · exact Or.inr ⟨List.mem_cons_of_mem _ h2, h3⟩
      · rw [if_neg hb] at h
        rcases List.mem_cons.mp h with rfl | h'
        · exact Or.inl rfl
        · rcases ih true h' with h1 | ⟨h2, h3⟩
          · exact Or.inl h1
          · exact Or.inr ⟨List.mem_cons_of_mem _ h2, h3⟩
    · rw [if_neg ha] at h
      rcases List.mem_cons.mp h with rfl | h'
      · exact Or.inr ⟨List.mem_cons_self _ _, Bool.eq_false_iff.mpr ha⟩
      · rcases ih false h' with h1 | ⟨h2, h3⟩
        · exact Or.inl h1
        · exact Or.inr ⟨List.mem_cons_of_mem _ h2, h3⟩

/-- Every character of the sanitized prompt is a lowercase letter, a digit,
or a hyphen. -/
theorem sanitizePrompt_chars (p : String) :
    ∀ c ∈ (sanitizePrompt p).data,
      ('a' ≤ c ∧ c ≤ 'z') ∨ ('0' ≤ c ∧ c ≤ '9') ∨ c = '-' := by
  intro c hc
  have hc1 : c ∈ (collapseWs ((p.data.map Char.toLower).filter keepChar)).take 50 := hc
  have hc2 : c ∈ collapseWs ((p.data.map Char.toLower).filter keepChar) :=
    (List.take_sublist _ _).mem hc1
  rcases mem_collapseWsAux _ false hc2 with rfl | ⟨hmem, hws⟩
  · exact Or.inr (Or.inr rfl)
  · have hk : keepChar c = true := (List.mem_filter.mp hmem).2
    rw [keepChar, hws] at hk
    simp only [Bool.or_false, Bool.or_eq_true, Bool.and_eq_true,
      decide_eq_true_eq] at hk
    rcases hk with h | h
    · exact Or.inl h
    · exact Or.inr (Or.inl h)

/-- The sanitized prompt never exceeds 50 characters. -/
theorem sanitizePrompt_length_le (p : String) : (sanitizePrompt p).length ≤ 50 :=
  List.length_take_le _ _

/-- The timestamp replacement never leaves a colon or a dot behind. -/
theorem fsSafeChar_ne (a : Char) : fsSafeChar a ≠ ':' ∧ fsSafeChar a ≠ '.' := by
  unfold fsSafeChar
  by_cases h : (a = ':' || a = '.') = true
  · rw [if_pos h]
    exact ⟨by decide, by decide⟩
  · rw [if_neg h]
    constructor
    · intro hc; exact h (by rw [hc]; decide)
    · intro hc; exact h (by rw [hc]; decide)

/-- A prompt none of whose characters survives the strip pass sanitizes to
the empty string. -/
theorem sanitizePrompt_eq_empty {p : String}
    (h : ∀ c ∈ p.data, keepChar c.toLower = false) : sanitizePrompt p = "" := by
  have hf : (p.data.map Char.toLower).filter keepChar = [] := by
    rw [List.filter_eq_nil_iff]
    intro a ha
    rcases List.mem_map.mp ha with ⟨b, hb, rfl⟩
    simp [h b hb]
  show String.mk ((collapseWs ((p.data.map Char.toLower).filter keepChar)).take 50) = ""
  rw [hf]
  rfl

/-- Appending the underscore, an empty sanitized segment, and the suffix is
the same as appending the literal "_.png". -/
theorem append_empty_mid (s : String) : s ++ "_" ++ "" ++ ".png" = s ++ "_.png" := by
  rw [String.append_empty, String.append_assoc]
  congr 1

/-! ### C1 and C9: filename generation -/

/-- C1 (amended): filename generation is deterministic for a fixed
timestamp and prompt, the sanitized segment uses only lowercase
alphanumerics and hyphens and never exceeds 50 characters, the result is
`{timestamp}_{sanitizedPrompt}.png` with colon and dot replaced by hyphens
in the timestamp, and for the prompt "A Cat!! @#%" the sanitized segment is
"a-cat-" (the stripped trailing symbols leave a trailing whitespace run,
which collapses to a final hyphen). -/
theorem generateFilename_spec (ts prompt : String) :
    generateFilename ts prompt = generateFilename ts prompt
    ∧ (∀ c ∈ (sanitizePrompt prompt).data,
        ('a' ≤ c ∧ c ≤ 'z') ∨ ('0' ≤ c ∧ c ≤ '9') ∨ c = '-')
    ∧ (sanitizePrompt prompt).length ≤ 50
    ∧ generateFilename ts prompt
        = fsSafeTimestamp ts ++ "_" ++ sanitizePrompt prompt ++ ".png"
    ∧ (∀ c ∈ (fsSafeTimestamp ts).data, c ≠ ':' ∧ c ≠ '.')
    ∧ sanitizePrompt "A Cat!! @#%" = "a-cat-" := by
  refine ⟨rfl, sanitizePrompt_chars prompt, sanitizePrompt_length_le prompt,
    rfl, ?_, by decide⟩
  intro c hc
  have hc' : c ∈ ts.data.map fsSafeChar := hc
  rcases List.mem_map.mp hc' with ⟨a, _, rfl⟩
  exact fsSafeChar_ne a

/-- C1 counterexample: the claim's worked example fails — the sanitized
segment of "A Cat!! @#%" is not "a-cat". -/
theorem sanitizePrompt_example_cex : ¬ (sanitizePrompt "A Cat!! @#%" = "a-cat") := by
  decide

/-- C9: for a timestamp in the ISO character class, every character of the
generated filename is a lowercase letter, digit, hyphen, T, Z, underscore,
or the dot of the .png suffix; and for a prompt whose characters are all
stripped, the sanitized segment is empty and the filename is still the
well-formed `{timestamp}_.png`. -/
theorem generateFilename_charset (ts prompt : String)
    (hts : ∀ c ∈ ts.data, isoTsChar c = true) :
    (∀ c ∈ (generateFilename ts prompt).data, filenameChar c = true)
    ∧ ((∀ c ∈ prompt.data, keepChar c.toLower = false) →
        sanitizePrompt prompt = ""
        ∧ generateFilename ts prompt = fsSafeTimestamp ts ++ "_.png") := by
  constructor
  · intro c hc
    have hdata : (generateFilename ts prompt).data
        = (fsSafeTimestamp ts).data
          ++ '_' :: ((sanitizePrompt prompt).data ++ ['.', 'p', 'n', 'g']) := by
      show (fsSafeTimestamp ts ++ "_" ++ sanitizePrompt prompt ++ ".png").data = _
      rw [String.data_append, String.data_append, String.data_append]
      simp
    rw [hdata] at hc
    rcases List.mem_append.mp hc with h1 | h2
    · have h1' : c ∈ ts.data.map fsSafeChar := h1
      rcases List.mem_map.mp h1' with ⟨a, ha, rfl⟩
      by_cases hcd : (a = ':' || a = '.') = true
      · have he : fsSafeChar a = '-' := by unfold fsSafeChar; rw [if_pos hcd]
        rw [he]; decide
      · have he : fsSafeChar a = a := by unfold fsSafeChar; rw [if_neg hcd]
        rw [he]
        have h2 := hts a ha
        rw [isoTsChar] at h2
        simp only [Bool.or_eq_true, decide_eq_true_eq] at h2
        simp only [Bool.or_eq_true, decide_eq_true_eq, not_or] at hcd
        rcases h2 with ((((hd | rfl) | rfl) | rfl) | rfl) | rfl
        · simp [filenameChar, hd]
        · decide
        · decide
        · exact absurd rfl hcd.1
        · exact absurd rfl hcd.2
        · decide
    · rcases List.mem_cons.mp h2 with rfl | h3
      · decide
      · rcases List.mem_append.mp h3 with h4 | h5
        · rcases sanitizePrompt_chars prompt c h4 with ⟨hl, hu⟩ | ⟨hl, hu⟩ | rfl
          · have hb : ('a' ≤ c && c ≤ 'z') = true := by
              rw [Bool.and_eq_true]
              exact ⟨decide_eq_true hl, decide_eq_true hu⟩
            simp [filenameChar, hb]
          · have hb : c.isDigit = true := by
              rw [Char.isDigit, Bool.and_eq_true]
              exact ⟨decide_eq_true hl, decide_eq_true hu⟩
            simp [filenameChar, hb]
          · decide
        · simp only [List.mem_cons, List.not_mem_nil, or_false] at h5
          rcases h5 with rfl | rfl | rfl | rfl <;> decide
  · intro hp
    have hempty := sanitizePrompt_eq_empty hp
    refine ⟨hempty, ?_⟩
    show fsSafeTimestamp ts ++ "_" ++ sanitizePrompt prompt ++ ".png" = _
    rw [hempty]
    exact append_empty_mid _

/-- C9 witness: a concrete ISO timestamp and an all-symbol prompt. -/
theorem generateFilename_charset_witness :
    sanitizePrompt "@#$" = ""
    ∧ generateFilename "2025-01-02T03:04:05.678Z" "@#$"
        = fsSafeTimestamp "2025-01-02T03:04:05.678Z" ++ "_.png" :=
  (generateFilename_charset "2025-01-02T03:04:05.678Z" "@#$" (by decide)).2
    (by decide)

/-! ### C2-C5: response normalization and error handling -/

/-- C2: the normalization takes the first element of a non-empty array,
uses a string directly, and fails with the upstream-response error on an
empty array or any other shape; consequently the generate pipeline behaves
identically on a bare string URL and on the singleton array holding it. -/
theorem normalizeOutput_spec (u : String) (urls : List String) (body : RawBody)
    (dl : DownloadOutcome) (ts : String) (now : Nat) (bp dir : String)
    (st : MemStorage) :
    normalizeOutput (.arr (u :: urls)) = .ok u
    ∧ normalizeOutput (.str u) = .ok u
    ∧ normalizeOutput (.arr []) = .error "No valid image URL in API response"
    ∧ normalizeOutput .other = .error "No valid image URL in API response"
    ∧ generatePipeline body (.str u) dl ts now bp dir st
        = generatePipeline body (.arr [u]) dl ts now bp dir st := by
  refine ⟨rfl, rfl, rfl, rfl, ?_⟩
  cases hv : validateBody body <;> simp [generatePipeline, hv, normalizeOutput]

/-- C3: prompt validation succeeds exactly on strings of length 1 to 500;
non-strings are rejected, and a prompt of length 0 (resp. above 500) makes
the generate handler answer the zod message "Prompt is required" (resp.
"Prompt too long") without storage change and without calling the
upstream. -/
theorem promptValidation_spec (s : String) (up : ReplicateOutput)
    (dl : DownloadOutcome) (ts : String) (now : Nat) (bp dir : String)
    (st : MemStorage) :
    ((validateBody (.promptStr s)).isOk = true ↔ (1 ≤ s.length ∧ s.length ≤ 500))
    ∧ (validateBody .notAString).isOk = false
    ∧ (s.length = 0 →
        generatePipeline (.promptStr s) up dl ts now bp dir st
          = ⟨⟨500, false, "Prompt is required"⟩, st, false⟩)
    ∧ (500 < s.length →
        generatePipeline (.promptStr s) up dl ts now bp dir st
          = ⟨⟨500, false, "Prompt too long"⟩, st, false⟩) := by
  refine ⟨?_, rfl, ?_, ?_⟩
  · simp only [validateBody]
    by_cases h1 : s.length < 1
    · rw [if_pos h1]
      constructor
      · intro h; exact Bool.noConfusion h
      · intro h; exact absurd h.1 (by omega)
    · rw [if_neg h1]
      by_cases h2 : 500 < s.length
      · rw [if_pos h2]
        constructor
        · intro h; exact Bool.noConfusion h
        · intro h; exact absurd h.2 (by omega)
      · rw [if_neg h2]
        constructor
        · intro _
          omega
        · intro _
          rfl
  · intro h0
    have hv : validateBody (.promptStr s) = .error "Prompt is required" := by
      simp only [validateBody]
      rw [if_pos (by omega : s.length < 1)]
    simp [generatePipeline, hv]
  · intro h500
    have hv : validateBody (.promptStr s) = .error "Prompt too long" := by
      simp only [validateBody]
      rw [if_neg (by omega : ¬ s.length < 1), if_pos h500]
    simp [generatePipeline, hv]

/-- C3 witness: the empty prompt at concrete pipeline inputs. -/
theorem promptValidation_spec_witness :
    generatePipeline (.promptStr "") (.arr ["http://x/img.png"]) (.ok 3)
      "2024-01-01T00:00:00.000Z" 0 "" "generated_images" emptyStorage
      = ⟨⟨500, false, "Prompt is required"⟩, emptyStorage, false⟩ :=
  (promptValidation_spec "" (.arr ["http://x/img.png"]) (.ok 3)
    "2024-01-01T00:00:00.000Z" 0 "" "generated_images" emptyStorage).2.2.1 rfl

/-- C4: on a valid prompt, when the upstream answer is an empty array or an
unrecognized shape, the generate handler fails with the upstream-response
error and the repository is left unchanged (the throw happens before the
save call). -/
theorem generate_badUpstream_spec (s : String) (up : ReplicateOutput)
    (dl : DownloadOutcome) (ts : String) (now : Nat) (bp dir : String)
    (st : MemStorage)
    (hv : 1 ≤ s.length ∧ s.length ≤ 500)
    (hb : up = .arr [] ∨ up = .other) :
    (generatePipeline (.promptStr s) up dl ts now bp dir st).storageAfter = st
    ∧ (generatePipeline (.promptStr s) up dl ts now bp dir st).response
        = ⟨500, false, "No valid image URL in API response"⟩ := by
  have hval : validateBody (.promptStr s) = .ok s := by
    simp only [validateBody]
    rw [if_neg (by omega : ¬ s.length < 1), if_neg (by omega : ¬ 500 < s.length)]
  have hup : normalizeOutput up = .error "No valid image URL in API response" := by
    rcases hb with rfl | rfl <;> rfl
  constructor <;> simp [generatePipeline, hval, hup]

/-- C4 witness: a concrete valid prompt against an empty-array upstream. -/
theorem generate_badUpstream_witness :
    (generatePipeline (.promptStr "cat") (.arr []) (.ok 5)
      "2024-01-01T00:00:00.000Z" 7 "" "generated_images" emptyStorage).storageAfter
      = emptyStorage :=
  (generate_badUpstream_spec "cat" (.arr []) (.ok 5) "2024-01-01T00:00:00.000Z" 7
    "" "generated_images" emptyStorage (by decide) (Or.inl rfl)).1

/-- C5 (amended): a generate request that fails validation gets the single
catch-all error response: HTTP status 500 (not a 400-class status) with the
thrown validation message surfaced verbatim. -/
theorem generate_validation_response (body : RawBody) (up : ReplicateOutput)
    (dl : DownloadOutcome) (ts : String) (now : Nat) (bp dir : String)
    (st : MemStorage) (msg : String)
    (h : validateBody body = .error msg) :
    (generatePipeline body up dl ts now bp dir st).response = ⟨500, false, msg⟩ := by
  simp [generatePipeline, h]

/-- C5 witness: the empty prompt yields the 500 response carrying the zod
message verbatim. -/
theorem generate_validation_response_witness :
    (generatePipeline (.promptStr "") (.arr []) (.ok 0) "t" 0 "" "d"
      emptyStorage).response = ⟨500, false, "Prompt is required"⟩ :=
  generate_validation_response (.promptStr "") (.arr []) (.ok 0) "t" 0 "" "d"
    emptyStorage "Prompt is required" rfl

/-- C5 counterexample: the claim announces a 400-class status, but the
handler answers status 500 on a validation failure (the empty prompt). -/
theorem generate_validation_status_cex :
    (generatePipeline (.promptStr "") (.arr ["http://x/img.png"]) (.ok 1)
      "2024-01-01T00:00:00.000Z" 1 "" "generated_images" emptyStorage).response.status
      = 500
    ∧ ¬ (400 ≤ (generatePipeline (.promptStr "") (.arr ["http://x/img.png"]) (.ok 1)
      "2024-01-01T00:00:00.000Z" 1 "" "generated_images" emptyStorage).response.status
        ∧ (generatePipeline (.promptStr "") (.arr ["http://x/img.png"]) (.ok 1)
      "2024-01-01T00:00:00.000Z" 1 "" "generated_images" emptyStorage).response.status
          ≤ 499) := by
  decide

/-! ### Helper lemmas about the repository sort -/

/-- The comparator read back as the ordering on timestamps. -/
theorem recentLe_iff {a b : GeneratedImage} :
    recentLe a b = true ↔ b.generatedAt ≤ a.generatedAt := by
  simp [recentLe]

/-- Insertion adds no record beyond the inserted one. -/
theorem mem_insertByRecent {x c : GeneratedImage} :
    ∀ l : List GeneratedImage, c ∈ insertByRecent x l → c = x ∨ c ∈ l := by
  intro l
  induction l with
  | nil =>
    intro h
    simp [insertByRecent] at h
    exact Or.inl h
  | cons y ys ih =>
    intro h
    unfold insertByRecent at h
    by_cases hxy : recentLe x y = true
    · rw [if_pos hxy] at h
      rcases List.mem_cons.mp h with rfl | h'
      · exact Or.inl rfl
      · exact Or.inr h'
    · rw [if_neg hxy] at h
      rcases List.mem_cons.mp h with rfl | h'
      · exact Or.inr (List.mem_cons_self _ _)
      · rcases ih h' with h1 | h2
        · exact Or.inl h1
        · exact Or.inr (List.mem_cons_of_mem _ h2)

/-- Insertion preserves the descending-by-timestamp invariant. -/
theorem pairwise_insertByRecent (x : GeneratedImage) :
    ∀ l : List GeneratedImage,
      l.Pairwise (fun a b => b.generatedAt ≤ a.generatedAt) →
      (insertByRecent x l).Pairwise (fun a b => b.generatedAt ≤ a.generatedAt) := by
  intro l
  induction l with
  | nil =>
    intro _
    simp [insertByRecent]
  | cons y ys ih =>
    intro h
    rw [List.pairwise_cons] at h
    unfold insertByRecent
    by_cases hxy : recentLe x y = true
    · rw [if_pos hxy]
      rw [List.pairwise_cons]
      refine ⟨?_, List.pairwise_cons.mpr h⟩
      intro c hc
      rcases List.mem_cons.mp hc with rfl | hc'
      · exact recentLe_iff.mp hxy
      · exact le_trans (h.1 c hc') (recentLe_iff.mp hxy)
    · rw [if_neg hxy]
      rw [List.pairwise_cons]
      constructor
      · intro c hc
        rcases mem_insertByRecent _ hc with rfl | hc'
        · have hlt : ¬ (y.generatedAt ≤ c.generatedAt) :=
            fun hle => hxy (recentLe_iff.mpr hle)
          omega
        · exact h.1 c hc'
      · exact ih h.2

/-- The repository sort is descending by creation time. -/
theorem pairwise_sortByRecent :
    ∀ l : List GeneratedImage,
      (sortByRecent l).Pairwise (fun a b => b.generatedAt ≤ a.generatedAt)
  | [] => by simp [sortByRecent]
  | x :: xs => pairwise_insertByRecent x _ (pairwise_sortByRecent xs)

/-! ### C6: listRecent ordering and limit -/

/-- Storage after three successful generations at times 1 < 2 < 3. -/
def threeGens : MemStorage :=
  (generatePipeline (.promptStr "three") (.arr ["http://x/img3.png"]) (.ok 12)
    "2024-01-01T00:00:02.000Z" 3 "" "generated_images"
    ((generatePipeline (.promptStr "two") (.arr ["http://x/img2.png"]) (.ok 11)
      "2024-01-01T00:00:01.000Z" 2 "" "generated_images"
      ((generatePipeline (.promptStr "one") (.arr ["http://x/img1.png"]) (.ok 10)
        "2024-01-01T00:00:00.000Z" 1 "" "generated_images"
        emptyStorage).storageAfter)).storageAfter)).storageAfter

/-- C6 (amended): for every repository state and every nonnegative limit,
getRecentImages is ordered by creation time descending with at most
`limit` entries; the declared default limit is 12; and after three
successful generations, getRecentImages 2 returns exactly the two most
recently created records, most recent first (the last two inserted records,
reversed). -/
theorem getRecentImages_spec (st : MemStorage) (limit : Int) (h : 0 ≤ limit) :
    (getRecentImages st limit).Pairwise (fun a b => b.generatedAt ≤ a.generatedAt)
    ∧ ((getRecentImages st limit).length : Int) ≤ limit
    ∧ getRecentImagesDefault st = getRecentImages st 12
    ∧ threeGens.images.length = 3
    ∧ getRecentImages threeGens 2 = (threeGens.images.drop 1).reverse := by
  refine ⟨?_, ?_, rfl, by decide, by decide⟩
  · exact List.Pairwise.sublist (List.take_sublist _ _) (pairwise_sortByRecent st.images)
  · have heq : getRecentImages st limit = (sortByRecent st.images).take limit.toNat := by
      unfold getRecentImages sliceEnd
      rw [if_neg (by omega : ¬ limit < 0)]
    rw [heq]
    calc ((List.take limit.toNat (sortByRecent st.images)).length : Int)
        ≤ (limit.toNat : Int) := by exact_mod_cast List.length_take_le _ _
      _ = limit := Int.toNat_of_nonneg h

/-- C6 witness: the empty store at the concrete limit 12. -/
theorem getRecentImages_spec_witness :
    ((0 : Int) ≤ 12) ∧ ((getRecentImages emptyStorage 12).length : Int) ≤ 12 :=
  ⟨by decide, (getRecentImages_spec emptyStorage 12 (by decide)).2.1⟩

/-- Storage holding two records, for the C6 counterexample. -/
def twoGens : MemStorage :=
  (saveGeneratedImage
    ((saveGeneratedImage emptyStorage
      ⟨"one", "u1", "p1", 1, "3:4", some "m"⟩ 1).2)
    ⟨"two", "u2", "p2", 2, "3:4", some "m"⟩ 2).2

/-- C6 counterexample: at the negative limit -1 (reachable through the
recent-images handler), `slice(0, -1)` keeps all but the last record, so
the result has 1 entry, which is not "at most limit" entries. -/
theorem getRecentImages_neg_limit_cex :
    (getRecentImages twoGens (-1)).length = 1
    ∧ ¬ (((getRecentImages twoGens (-1)).length : Int) ≤ -1) := by
  decide

/-! ### C7: count equals successful saves -/

/-- A generate attempt grows the store by one record exactly when it
succeeds, and leaves it unchanged otherwise. -/
theorem generatePipeline_images_length (body : RawBody) (up : ReplicateOutput)
    (dl : DownloadOutcome) (ts : String) (now : Nat) (bp dir : String)
    (st : MemStorage) :
    (generatePipeline body up dl ts now bp dir st).storageAfter.images.length
      = st.images.length
        + (if (generatePipeline body up dl ts now bp dir st).response.success
            then 1 else 0) := by
  cases hv : validateBody body with
  | error msg => simp [generatePipeline, hv]
  | ok p =>
    cases hu : normalizeOutput up with
    | error msg => simp [generatePipeline, hv, hu]
    | ok u =>
      cases dl with
      | ok size => simp [generatePipeline, hv, hu, saveGeneratedImage]
      | fail msg => simp [generatePipeline, hv, hu]

/-- C7: over any sequence of repository operations (direct saves and whole
generate attempts, failed ones included), the image count equals the
initial count plus the number of save calls performed. -/
theorem getImageCount_runOps (bp dir : String) (ops : List StorageOp)
    (st : MemStorage) :
    getImageCount (runOps bp dir ops st).1
      = getImageCount st + (runOps bp dir ops st).2 := by
  induction ops generalizing st with
  | nil => simp [runOps, getImageCount]
  | cons op ops ih =>
    cases op with
    | save ins now =>
      simp only [runOps]
      rw [ih]
      simp [getImageCount, saveGeneratedImage]
      omega
    | genAttempt body up dl ts now =>
      simp only [runOps]
      rw [ih]
      have hl := generatePipeline_images_length body up dl ts now bp dir st
      simp only [getImageCount]
      omega

/-! ### C8: the recent-images limit query parameter -/

/-- C8: an absent, non-numeric, or zero-parsing limit falls back to the
default 12 (so the resolved limit is never 0 and a caller cannot request
zero results), while a negative parsed limit is handed to the repository
unchanged. -/
theorem recentLimit_spec (q : Option String) (st : MemStorage) :
    recentLimit none = 12
    ∧ (jsParseInt q = .nan → recentLimit q = 12)
    ∧ (jsParseInt q = .val 0 → recentLimit q = 12)
    ∧ jsParseInt (some "abc") = .nan
    ∧ recentLimit q ≠ 0
    ∧ (∀ n : Int, n < 0 → jsParseInt q = .val n →
        recentLimit q = n ∧ recentHandler q st = getRecentImages st n) := by
  refine ⟨rfl, ?_, ?_, by decide, ?_, ?_⟩
  · intro h
    simp [recentLimit, h]
  · intro h
    simp [recentLimit, h]
  · unfold recentLimit
    cases jsParseInt q with
    | nan => decide
    | val n =>
      show (if n = 0 then (12 : Int) else n) ≠ 0
      by_cases h : n = 0
      · rw [if_pos h]
        decide
      · rw [if_neg h]
        exact h
  · intro n hn h
    have h1 : recentLimit q = n := by
      unfold recentLimit
      rw [h]
      show (if n = 0 then (12 : Int) else n) = n
      rw [if_neg (by omega : ¬ n = 0)]
    exact ⟨h1, by unfold recentHandler; rw [h1]⟩

/-- C8 witness: the concrete negative limit string "-3". -/
theorem recentLimit_spec_witness :
    recentLimit (some "-3") = -3
    ∧ recentHandler (some "-3") emptyStorage = getRecentImages emptyStorage (-3) :=
  (recentLimit_spec (some "-3") emptyStorage).2.2.2.2.2 (-3) (by decide) (by decide)

/-! ### C10: the modelUsed fallback -/

/-- C10: saveGeneratedImage appends exactly the returned record; a missing
or empty modelUsed is stored as the fallback "bytedance/sdxl-lightning-4step",
and a non-empty modelUsed is stored unchanged. -/
theorem saveGeneratedImage_modelUsed (st : MemStorage) (ins : InsertImage)
    (now : Nat) :
    (saveGeneratedImage st ins now).2.images
        = st.images ++ [(saveGeneratedImage st ins now).1]
    ∧ ((ins.modelUsed = none ∨ ins.modelUsed = some "") →
        (saveGeneratedImage st ins now).1.modelUsed
          = "bytedance/sdxl-lightning-4step")
    ∧ (∀ s : String, ins.modelUsed = some s → s ≠ "" →
        (saveGeneratedImage st ins now).1.modelUsed = s) := by
  refine ⟨rfl, ?_, ?_⟩
  · rintro (h | h) <;> simp [saveGeneratedImage, h]
  · intro s h hs
    simp [saveGeneratedImage, h, hs]

/-- C10 witness: a record saved without a modelUsed gets the fallback. -/
theorem saveGeneratedImage_modelUsed_witness :
    (saveGeneratedImage emptyStorage ⟨"p", "u", "l", 1, "3:4", none⟩ 0).1.modelUsed
      = "bytedance/sdxl-lightning-4step" :=
  (saveGeneratedImage_modelUsed emptyStorage ⟨"p", "u", "l", 1, "3:4", none⟩ 0).2.1
    (Or.inl rfl)

end TwentyNine
